import Mathlib

/-!
Shallow embedding of the sentramod message service (conversation/message
persistence for a teen-safety chat platform) and verification of the
specification claims against it.

The embedding follows the Python source:
- `app/domain/entities/conversation.py` — the `Conversation` aggregate,
- `app/domain/entities/message.py` — the `Message` aggregate,
- `app/api/models.py` — pydantic request validation,
- `app/api/routes.py` — the route handlers (the message ingestion pipeline),
- `app/infrastructure/usage_tracking.py` — the daily-limit guard,
- `app/infrastructure/persistence/conversation_repository_impl.py` —
  conversation listing.

Opaque identifiers (UUIDs) are modelled as `Nat`; timestamps (`datetime`)
as `Nat` instants supplied by the caller (the embedding of `utcnow()`).
Python text is modelled as `String`; floating-point `cost_usd` is modelled
as `Option Rat` (carried through, never computed with).  Python `dict`s
that the claims inspect (`safety_flags`) are association lists with
first-match lookup; open-ended `metadata` maps, which no operation in
scope reads, are omitted.  I/O (storage, HTTP, Redis) is modelled by
passing the collaborator's observable behaviour in as data and recording
the effects the handler performs in the result.
-/

namespace SentraMod

/-- Python truthiness for the values the code tests (`str` and `int`). -/
def strTruthy (s : String) : Bool := s ≠ ""

/-- Python truthiness of an optional int field (`None` and `0` are falsy). -/
def optIntTruthy : Option Int → Bool
  | none => false
  | some t => t ≠ 0

/-- Embedding of Python `str.strip()`: remove leading and trailing
whitespace characters. -/
def pyStrip (s : String) : String :=
  String.mk
    (((s.data.dropWhile Char.isWhitespace).reverse.dropWhile
        Char.isWhitespace).reverse)

/-- Embedding of Python character slicing `s[:n]`. -/
def pyTruncate (s : String) (n : Nat) : String := String.mk (s.data.take n)

/-- Python `x or default` for an optional string (`None`/`""` are falsy). -/
def pyOrStr (o : Option String) (d : String) : String :=
  match o with
  | none => d
  | some s => if s = "" then d else s

/-- `ConversationStatus` enum from `conversation.py`. -/
inductive ConversationStatus where
  | active
  | archived
  | deleted
deriving DecidableEq, Repr

/-- Embedding of the `ConversationStatus(value)` enum constructor:
`some` on the member values, `none` where Python raises `ValueError`. -/
def ConversationStatus.fromString (s : String) : Option ConversationStatus :=
  if s = "active" then some .active
  else if s = "archived" then some .archived
  else if s = "deleted" then some .deleted
  else none

/-- `MessageRole` enum from `message.py`. -/
inductive MessageRole where
  | user
  | assistant
  | system
deriving DecidableEq, Repr

/-- Embedding of the `MessageRole(value)` enum constructor:
`some` on the member values, `none` where Python raises `ValueError`. -/
def MessageRole.fromString (s : String) : Option MessageRole :=
  if s = "user" then some .user
  else if s = "assistant" then some .assistant
  else if s = "system" then some .system
  else none

/-- `TopicTier` enum from `message.py`. -/
inductive TopicTier where
  | tier_1
  | tier_2
  | tier_3
  | tier_4
deriving DecidableEq, Repr

/-- A value stored in the `safety_flags` dict (`mark_as_blocked` stores
booleans and strings; `add_safety_flag` can store richer values, which
only matter through their truthiness). -/
inductive FlagVal where
  | bool (b : Bool)
  | str (s : String)
deriving DecidableEq, Repr

/-- Python truthiness of a `safety_flags` value. -/
def FlagVal.truthy : FlagVal → Bool
  | .bool b => b
  | .str s => s ≠ ""

/-- `dict.get(k)` on an association-list dict: first-match lookup. -/
def dictGet (d : List (String × FlagVal)) (k : String) : Option FlagVal :=
  (d.find? (fun p => p.1 = k)).map (·.2)

/-- The `Conversation` aggregate (`conversation.py`). -/
structure Conversation where
  id : Nat
  teen_id : Nat
  title : String
  status : ConversationStatus
  created_at : Nat
  updated_at : Nat
  last_message_at : Option Nat
  message_count : Nat
deriving DecidableEq, Repr

namespace Conversation

/-- `Conversation.__init__`: the caller-supplied `title` defaults to
`"New Conversation"` only when falsy (`None` or `""`); it is stored
verbatim otherwise (no trimming, no length cap). -/
def init (teen_id : Nat) (id : Nat) (title : Option String)
    (status : ConversationStatus) (created_at updated_at : Nat)
    (last_message_at : Option Nat) (message_count : Nat) : Conversation :=
  { id := id
    teen_id := teen_id
    title := pyOrStr title "New Conversation"
    status := status
    created_at := created_at
    updated_at := updated_at
    last_message_at := last_message_at
    message_count := message_count }

/-- `Conversation.add_message` (`now` embeds `datetime.utcnow()`). -/
def add_message (c : Conversation) (now : Nat) : Conversation :=
  { c with
    message_count := c.message_count + 1
    last_message_at := some now
    updated_at := now }

/-- `Conversation.set_title`: `ValueError` when the title is empty or
whitespace-only; otherwise stores the trimmed title truncated to 200
characters. -/
def set_title (c : Conversation) (title : String) (now : Nat) :
    Except String Conversation :=
  if title = "" ∨ (pyStrip title).length = 0 then
    .error "Title cannot be empty"
  else
    .ok { c with title := pyTruncate (pyStrip title) 200, updated_at := now }

/-- `Conversation.archive`: `ValueError` on a deleted conversation. -/
def archive (c : Conversation) (now : Nat) : Except String Conversation :=
  if c.status = ConversationStatus.deleted then
    .error "Cannot archive a deleted conversation"
  else
    .ok { c with status := ConversationStatus.archived, updated_at := now }

/-- `Conversation.restore`: `ValueError` on a deleted conversation. -/
def restore (c : Conversation) (now : Nat) : Except String Conversation :=
  if c.status = ConversationStatus.deleted then
    .error "Cannot restore a deleted conversation"
  else
    .ok { c with status := ConversationStatus.active, updated_at := now }

/-- `Conversation.delete`: unconditional soft delete. -/
def delete (c : Conversation) (now : Nat) : Conversation :=
  { c with status := ConversationStatus.deleted, updated_at := now }

/-- `Conversation.can_add_messages`: true iff status is active. -/
def can_add_messages (c : Conversation) : Bool :=
  c.status = ConversationStatus.active

end Conversation

/-- The `Message` aggregate (`message.py`). -/
structure Message where
  id : Nat
  conversation_id : Nat
  role : MessageRole
  content : String
  topic_tier : Option TopicTier
  topic_categories : List String
  safety_flags : List (String × FlagVal)
  created_at : Nat
deriving DecidableEq, Repr

namespace Message

/-- `Message.__init__`: note that `content` is stored without any
validation; `topic_categories or []` and `safety_flags or {}` default
the falsy values (`None` and the empty collection) to empty. -/
def init (conversation_id : Nat) (role : MessageRole) (content : String)
    (id : Nat) (topic_tier : Option TopicTier)
    (topic_categories : Option (List String))
    (safety_flags : Option (List (String × FlagVal)))
    (created_at : Nat) : Message :=
  { id := id
    conversation_id := conversation_id
    role := role
    content := content
    topic_tier := topic_tier
    topic_categories := topic_categories.getD []
    safety_flags := safety_flags.getD []
    created_at := created_at }

/-- `Message.is_safe`: returns true immediately when `safety_flags` is
empty (Python `if not self.safety_flags: return True`); otherwise false
when the `"blocked"` flag is truthy or the tier is `tier_4`. -/
def is_safe (m : Message) : Bool :=
  if m.safety_flags.isEmpty then true
  else if ((dictGet m.safety_flags "blocked").getD (.bool false)).truthy then false
  else if m.topic_tier = some TopicTier.tier_4 then false
  else true

/-- `Message.needs_approval`: tier 2 or 3. -/
def needs_approval (m : Message) : Bool :=
  m.topic_tier = some TopicTier.tier_2 ∨ m.topic_tier = some TopicTier.tier_3

/-- `Message.mark_as_blocked`. -/
def mark_as_blocked (m : Message) (reason : String) : Message :=
  { m with
    safety_flags :=
      (m.safety_flags.filter (fun p => p.1 ≠ "blocked" ∧ p.1 ≠ "block_reason"))
        ++ [("blocked", .bool true), ("block_reason", .str reason)]
    topic_tier := some TopicTier.tier_4 }

end Message

/-! ### Limit Guard (`usage_tracking.py`) -/

/-- Result of `UsageTrackingService.check_daily_message_limit`. -/
structure LimitCheckResult where
  allowed : Bool
  messages_sent : Nat
  messages_limit : Nat
deriving DecidableEq, Repr

/-- Observable behaviour of the Limit Guard's outbound HTTP calls:
either the whole `try` block raises (`failure` — timeout, connection
error, …) or the calls return responses.  `usageStatus`/`usageSent`
model the `/usage/today` response (status code and the optional
`messages_sent` JSON field); `ageStatus`/`ageLimit` model the
age-group response, consulted only when a truthy `teen_age` is given. -/
inductive TransportResult where
  | failure
  | success (usageStatus : Nat) (usageSent : Option Nat)
      (ageStatus : Nat) (ageLimit : Option Nat)
deriving DecidableEq, Repr

/-- `UsageTrackingService.check_daily_message_limit`: on any transport
failure it returns the fail-open sentinel `{allowed: True,
messages_sent: 0, messages_limit: 100}`; otherwise `messages_sent`
defaults to 0 unless the usage call returned 200, the limit defaults to
100 (the age-group endpoint is consulted only for a truthy `teen_age`),
and `allowed` is `messages_sent < messages_limit`. -/
def check_daily_message_limit (t : TransportResult) (teen_age : Option Nat) :
    LimitCheckResult :=
  match t with
  | .failure => { allowed := true, messages_sent := 0, messages_limit := 100 }
  | .success usageStatus usageSent ageStatus ageLimit =>
    let messages_sent := if usageStatus = 200 then usageSent.getD 0 else 0
    let ageTruthy : Bool := match teen_age with
      | none => false
      | some a => a ≠ 0
    let messages_limit :=
      if ageTruthy then (if ageStatus = 200 then ageLimit.getD 100 else 100)
      else 100
    { allowed := messages_sent < messages_limit
      messages_sent := messages_sent
      messages_limit := messages_limit }

/-! ### API request models (`api/models.py`) -/

/-- `CreateMessageRequest` (pydantic). -/
structure CreateMessageRequest where
  role : String
  content : String
  topic_tier : Option Int
  topic_categories : List String
  provider : Option String
  model : Option String
  input_tokens : Option Int
  output_tokens : Option Int
  total_tokens : Option Int
  cost_usd : Option Rat
deriving DecidableEq, Repr

/-- The pydantic field constraints of `CreateMessageRequest`:
`content` has `min_length=1`, `topic_tier` has `ge=1, le=4`, and the
token/cost fields have `ge=0`.  A request failing these never reaches
the route handler (FastAPI answers with a validation error). -/
def CreateMessageRequest.valid (r : CreateMessageRequest) : Bool :=
  (1 ≤ r.content.length : Bool)
  && (match r.topic_tier with
      | none => true
      | some t => (1 ≤ t : Bool) && (t ≤ 4 : Bool))
  && (match r.input_tokens with
      | none => true
      | some t => (0 ≤ t : Bool))
  && (match r.output_tokens with
      | none => true
      | some t => (0 ≤ t : Bool))
  && (match r.total_tokens with
      | none => true
      | some t => (0 ≤ t : Bool))
  && (match r.cost_usd with
      | none => true
      | some c => (0 ≤ c : Bool))

/-- `UpdateConversationRequest` (pydantic; both fields unconstrained). -/
structure UpdateConversationRequest where
  title : Option String
  status : Option String
deriving DecidableEq, Repr

/-! ### The message ingestion pipeline (`routes.create_message`) -/

/-- The canonical error shape: HTTP status plus `detail`. -/
structure HttpError where
  status : Nat
  detail : String
deriving DecidableEq, Repr

/-- A job published to the topic-classification queue
(`TopicClassifierQueue.publish_for_classification` arguments). -/
structure ClassificationJob where
  message_id : Nat
  conversation_id : Nat
  teen_id : Nat
  content : String
deriving DecidableEq, Repr

/-- A usage-tracking dispatch (`UsageTrackingService.record_message` /
`record_token_usage` invocation, with its arguments). -/
inductive UsageEvent where
  | message_record (user_id : Nat) (conversation_id : Nat)
      (topic_category : Option String) (topic_tier : Option Int)
  | token_usage (user_id : Nat) (provider : String) (model : String)
      (input_tokens : Int) (output_tokens : Int) (total_tokens : Int)
      (cost_usd : Option Rat)
deriving DecidableEq, Repr

def UsageEvent.isTokenUsage : UsageEvent → Bool
  | .token_usage .. => true
  | _ => false

def UsageEvent.isMessageRecord : UsageEvent → Bool
  | .message_record .. => true
  | _ => false

/-- `true` iff the events contain a token-usage dispatch. -/
def hasTokenUsage (l : List UsageEvent) : Bool := l.any UsageEvent.isTokenUsage

/-- `true` iff the events contain a message-record dispatch. -/
def hasMessageRecord (l : List UsageEvent) : Bool :=
  l.any UsageEvent.isMessageRecord

/-- Everything observable about one run of the append-message pipeline:
the HTTP result, the message row created (if any), the conversation
record written back (if any), and the side effects dispatched. -/
structure PipelineOutcome where
  result : Except HttpError Message
  storedMessage : Option Message
  updatedConversation : Option Conversation
  classificationJobs : List ClassificationJob
  usageEvents : List UsageEvent
deriving Repr

/-- The tier map of `routes.create_message`
(`{1: TIER_1, 2: TIER_2, 3: TIER_3, 4: TIER_4}.get(...)`):
out-of-range integers map to `None` with no error. -/
def tierFromInt (t : Int) : Option TopicTier :=
  if t = 1 then some TopicTier.tier_1
  else if t = 2 then some TopicTier.tier_2
  else if t = 3 then some TopicTier.tier_3
  else if t = 4 then some TopicTier.tier_4
  else none

/-- `routes.create_message`, after request validation.  Inputs stand for
the collaborators: `conversation` is the `conv_repo.get_by_id` result,
`limitTransport` the behaviour of the Limit Guard's HTTP calls, `msgId`
the generated UUID and `now` the clock.  Persistence is modelled as
succeeding (storage failure is outside the claims under verification). -/
def create_message_handler (conversation_id : Nat)
    (conversation : Option Conversation) (req : CreateMessageRequest)
    (limitTransport : TransportResult) (msgId : Nat) (now : Nat) :
    PipelineOutcome :=
  match conversation with
  | none =>
    { result := .error { status := 404, detail := "Conversation not found" }
      storedMessage := none, updatedConversation := none
      classificationJobs := [], usageEvents := [] }
  | some conv =>
    if conv.can_add_messages then
      -- Daily-limit guard, only for user-authored messages.  The guard
      -- itself never raises (it catches everything and fails open), so
      -- the surrounding try/except in the route only re-raises the 429.
      let check := check_daily_message_limit limitTransport none
      if req.role = "user" ∧ check.allowed = false then
        let detail429 := "Daily message limit reached ("
          ++ toString check.messages_sent ++ "/"
          ++ toString check.messages_limit ++ ")"
        { result := .error { status := 429, detail := detail429 }
          storedMessage := none, updatedConversation := none
          classificationJobs := [], usageEvents := [] }
      else
        let topic_tier_enum : Option TopicTier :=
          match req.topic_tier with
          | none => none
          | some t => tierFromInt t
        match MessageRole.fromString req.role with
        | none =>
          -- `MessageRole(request_data.role)` raises ValueError, which the
          -- route's `except ValueError` turns into a 400.
          let detailRole := req.role ++ " is not a valid MessageRole"
          { result := .error { status := 400, detail := detailRole }
            storedMessage := none, updatedConversation := none
            classificationJobs := [], usageEvents := [] }
        | some role =>
          let message := Message.init conversation_id role req.content msgId
            topic_tier_enum (some req.topic_categories) none now
          let conv2 := conv.add_message now
          let jobs : List ClassificationJob :=
            if role = MessageRole.user then
              [{ message_id := message.id, conversation_id := conversation_id
                 teen_id := conv.teen_id, content := message.content }]
            else []
          let events : List UsageEvent :=
            if role = MessageRole.user then
              [.message_record conv.teen_id conversation_id
                req.topic_categories.head? req.topic_tier]
            else if role = MessageRole.assistant
                ∧ optIntTruthy req.total_tokens then
              [.token_usage conv.teen_id (pyOrStr req.provider "unknown")
                (pyOrStr req.model "unknown") ((req.input_tokens).getD 0)
                ((req.output_tokens).getD 0) ((req.total_tokens).getD 0)
                req.cost_usd]
            else []
          { result := .ok message
            storedMessage := some message
            updatedConversation := some conv2
            classificationJobs := jobs
            usageEvents := events }
    else
      { result := .error
          { status := 400, detail := "Cannot add messages to this conversation" }
        storedMessage := none, updatedConversation := none
        classificationJobs := [], usageEvents := [] }

/-- The full endpoint: pydantic validation of the request body, then the
route handler. -/
def create_message_endpoint (conversation_id : Nat)
    (conversation : Option Conversation) (req : CreateMessageRequest)
    (limitTransport : TransportResult) (msgId : Nat) (now : Nat) :
    PipelineOutcome :=
  if req.valid then
    create_message_handler conversation_id conversation req limitTransport
      msgId now
  else
    { result := .error { status := 422, detail := "request validation error" }
      storedMessage := none, updatedConversation := none
      classificationJobs := [], usageEvents := [] }

/-! ### `routes.update_conversation` -/

/-- `routes.update_conversation`, after the repository lookup.  A falsy
`title`/`status` (absent or empty string) skips the corresponding
branch; a status string other than the three known ones silently
matches no branch.  `ValueError`s from the aggregate become 400s. -/
def update_conversation_handler (conversation : Option Conversation)
    (req : UpdateConversationRequest) (now : Nat) :
    Except HttpError Conversation :=
  match conversation with
  | none => .error { status := 404, detail := "Conversation not found" }
  | some conv =>
    let step1 : Except String Conversation :=
      match req.title with
      | none => .ok conv
      | some t => if t = "" then .ok conv else conv.set_title t now
    match step1 with
    | .error e => .error { status := 400, detail := e }
    | .ok c1 =>
      let step2 : Except String Conversation :=
        match req.status with
        | none => .ok c1
        | some s =>
          if s = "" then .ok c1
          else if s = "archived" then c1.archive now
          else if s = "active" then c1.restore now
          else if s = "deleted" then .ok (c1.delete now)
          else .ok c1
      match step2 with
      | .error e => .error { status := 400, detail := e }
      | .ok c2 => .ok c2

/-! ### Conversation listing (`routes.get_teen_conversations` and
`ConversationRepositoryImpl.get_by_teen_id`) -/

/-- The SQL `ORDER BY last_message_at DESC NULLS LAST, created_at DESC`
comparator: `a` sorts no later than `b`. -/
def convBefore (a b : Conversation) : Prop :=
  (match a.last_message_at, b.last_message_at with
   | some x, some y => if x = y then decide (b.created_at ≤ a.created_at) else decide (y < x)
   | some _, none => true
   | none, some _ => false
   | none, none => decide (b.created_at ≤ a.created_at)) = true

instance : DecidableRel convBefore := fun a b =>
  inferInstanceAs (Decidable (_ = true))

/-- `ConversationRepositoryImpl.get_by_teen_id`: filter by teen, filter
by status when one is given (`if status:` — every enum member is
truthy), order by the listing comparator, then apply OFFSET/LIMIT. -/
def get_by_teen_id (store : List Conversation) (teen_id : Nat)
    (status : Option ConversationStatus) (limit offset : Nat) :
    List Conversation :=
  let q : List Conversation := store.filter (fun c => c.teen_id = teen_id)
  let q2 : List Conversation := match status with
    | some s => q.filter (fun c => c.status = s)
    | none => q
  ((q2.insertionSort convBefore).drop offset).take limit

/-- `routes.get_teen_conversations`: the `status` query parameter
defaults to `"active"` when omitted; an empty string is falsy and
disables the filter; an unparsable status is a 400. -/
def get_teen_conversations_route (store : List Conversation) (teen_id : Nat)
    (statusParam : Option String) (limit offset : Nat) :
    Except HttpError (List Conversation) :=
  let status := statusParam.getD "active"
  if status = "" then
    .ok (get_by_teen_id store teen_id none limit offset)
  else
    match ConversationStatus.fromString status with
    | none => .error { status := 400, detail := "Invalid status: " ++ status }
    | some s => .ok (get_by_teen_id store teen_id (some s) limit offset)

/-! ### Helper lemmas -/

theorem MessageRole.fromString_eq_user {s : String} :
    MessageRole.fromString s = some MessageRole.user ↔ s = "user" := by
  unfold MessageRole.fromString
  split_ifs <;> simp_all

theorem MessageRole.fromString_eq_assistant {s : String} :
    MessageRole.fromString s = some MessageRole.assistant ↔ s = "assistant" := by
  unfold MessageRole.fromString
  split_ifs <;> simp_all

theorem MessageRole.fromString_eq_system {s : String} :
    MessageRole.fromString s = some MessageRole.system ↔ s = "system" := by
  unfold MessageRole.fromString
  split_ifs <;> simp_all

/-- Characterization of every run of the route handler that created a
message row: the conversation was found, the role string parsed, the
stored message is the constructed aggregate, and the dispatched side
effects are exactly those of the success branch. -/
theorem create_message_handler_spec (cid : Nat)
    (conversation : Option Conversation) (req : CreateMessageRequest)
    (lt : TransportResult) (msgId now : Nat) (m : Message)
    (h : (create_message_handler cid conversation req lt msgId now).storedMessage
          = some m) :
    ∃ conv role,
      conversation = some conv
      ∧ MessageRole.fromString req.role = some role
      ∧ m = Message.init cid role req.content msgId
          (match req.topic_tier with
           | none => none
           | some t => tierFromInt t)
          (some req.topic_categories) none now
      ∧ (create_message_handler cid conversation req lt msgId now).classificationJobs
          = (if role = MessageRole.user then
              [{ message_id := msgId, conversation_id := cid,
                 teen_id := conv.teen_id, content := req.content }]
            else [])
      ∧ (create_message_handler cid conversation req lt msgId now).usageEvents
          = (if role = MessageRole.user then
              [UsageEvent.message_record conv.teen_id cid
                req.topic_categories.head? req.topic_tier]
            else if role = MessageRole.assistant ∧ optIntTruthy req.total_tokens then
              [UsageEvent.token_usage conv.teen_id (pyOrStr req.provider "unknown")
                (pyOrStr req.model "unknown") ((req.input_tokens).getD 0)
                ((req.output_tokens).getD 0) ((req.total_tokens).getD 0)
                req.cost_usd]
            else []) := by
  match hco : conversation with
  | none => simp [create_message_handler] at h
  | some conv =>
    by_cases hc : conv.can_add_messages
    · by_cases hl : req.role = "user"
        ∧ (check_daily_message_limit lt none).allowed = false
      · simp [create_message_handler, hc, hl] at h
      · match hr : MessageRole.fromString req.role with
        | none => simp [create_message_handler, hc, hl, hr] at h
        | some role =>
          refine ⟨conv, role, rfl, rfl, ?_, ?_, ?_⟩
          · simp [create_message_handler, hc, hl, hr] at h
            exact h.symm
          · simp [create_message_handler, hc, hl, hr, Message.init]
          · simp [create_message_handler, hc, hl, hr, Message.init]
    · simp [create_message_handler, hc] at h

/-- Bridging lemma: a stored message at the endpoint level means the
request passed validation and the handler stored it. -/
theorem create_message_endpoint_stored (cid : Nat)
    (conversation : Option Conversation) (req : CreateMessageRequest)
    (lt : TransportResult) (msgId now : Nat) (m : Message)
    (h : (create_message_endpoint cid conversation req lt msgId now).storedMessage
          = some m) :
    req.valid = true
    ∧ create_message_endpoint cid conversation req lt msgId now
        = create_message_handler cid conversation req lt msgId now := by
  by_cases hv : req.valid
  · exact ⟨hv, by simp [create_message_endpoint, hv]⟩
  · simp [create_message_endpoint, hv] at h

/-! ### Concrete fixtures for witnesses and counterexamples -/

/-- An active conversation owned by teen 1. -/
def convA : Conversation := Conversation.init 1 2 none .active 0 0 none 0

/-- An archived conversation owned by teen 1. -/
def convB : Conversation := Conversation.init 1 3 none .archived 5 5 none 0

/-- A deleted conversation owned by teen 1. -/
def convD : Conversation := Conversation.init 1 4 none .deleted 5 5 none 0

/-- A minimal valid user-role append request. -/
def reqUser : CreateMessageRequest :=
  { role := "user", content := "Hi", topic_tier := none, topic_categories := []
    provider := none, model := none, input_tokens := none, output_tokens := none
    total_tokens := none, cost_usd := none }

/-! ### Claims -/

/-- C1.  An append-message request on a conversation whose status is not
active fails with 400 before the message aggregate is constructed: no
message row is stored, no conversation update is written, and no
classification or usage dispatch occurs. -/
theorem claim1_inactive_conversation_rejected (cid : Nat) (conv : Conversation)
    (req : CreateMessageRequest) (lt : TransportResult) (msgId now : Nat)
    (hv : req.valid = true) (hs : conv.status ≠ ConversationStatus.active) :
    create_message_endpoint cid (some conv) req lt msgId now =
      { result := .error
          { status := 400, detail := "Cannot add messages to this conversation" }
        storedMessage := none
        updatedConversation := none
        classificationJobs := []
        usageEvents := [] } := by
  have hc : conv.can_add_messages = false := by
    simp [Conversation.can_add_messages, hs]
  simp [create_message_endpoint, hv, create_message_handler, hc]

/-- Witness for C1 at an archived conversation. -/
theorem claim1_witness :
    reqUser.valid = true ∧ convB.status ≠ ConversationStatus.active ∧
      create_message_endpoint 3 (some convB) reqUser .failure 7 10 =
        { result := .error
            { status := 400, detail := "Cannot add messages to this conversation" }
          storedMessage := none
          updatedConversation := none
          classificationJobs := []
          usageEvents := [] } :=
  ⟨by decide, by decide,
    claim1_inactive_conversation_rejected 3 convB reqUser .failure 7 10
      (by decide) (by decide)⟩

/-- C2.  On any transport failure the Limit Guard returns exactly the
fail-open sentinel `{allowed: true, messages_sent: 0, messages_limit:
100}`, and a valid user-role append on an active conversation still
succeeds when the guard's transport fails — the guard's internal errors
never surface as a rejection. -/
theorem claim2_limit_guard_fails_open :
    (∀ age, check_daily_message_limit .failure age =
      { allowed := true, messages_sent := 0, messages_limit := 100 })
    ∧ ∀ (cid : Nat) (conv : Conversation) (req : CreateMessageRequest)
        (msgId now : Nat), req.valid = true →
        conv.status = ConversationStatus.active → req.role = "user" →
        (create_message_endpoint cid (some conv) req .failure msgId now).result.isOk
          = true := by
  refine ⟨fun age => rfl, ?_⟩
  intro cid conv req msgId now hv ha hr
  have hc : conv.can_add_messages = true := by
    simp [Conversation.can_add_messages, ha]
  simp [create_message_endpoint, hv, create_message_handler, hc,
    check_daily_message_limit, hr, MessageRole.fromString, Except.isOk,
    Except.toBool]

/-- Witness for C2: a concrete failing transport still yields a 2xx. -/
theorem claim2_witness :
    check_daily_message_limit .failure (some 15) =
      { allowed := true, messages_sent := 0, messages_limit := 100 }
    ∧ (create_message_endpoint 2 (some convA) reqUser .failure 7 10).result.isOk
        = true :=
  ⟨claim2_limit_guard_fails_open.1 (some 15),
    claim2_limit_guard_fails_open.2 2 convA reqUser 7 10
      (by decide) (by decide) (by decide)⟩

/-- C4 counterexample.  A message with `topic_tier = tier_4` but an
empty `safety_flags` dict is reported safe: `is_safe()` returns true,
where the claim requires false for every tier_4 message. -/
theorem claim4_counterexample :
    (Message.init 1 .user "hello" 2 (some .tier_4) none none 0).topic_tier
        = some TopicTier.tier_4
    ∧ (Message.init 1 .user "hello" 2 (some .tier_4) none none 0).safety_flags = []
    ∧ (Message.init 1 .user "hello" 2 (some .tier_4) none none 0).is_safe = true :=
  ⟨rfl, rfl, by decide⟩

/-- C4 as amended.  `is_safe()` returns false iff `safety_flags` is
non-empty and (the `"blocked"` flag is truthy or `topic_tier` is
tier_4); in particular a tier_4 message whose `safety_flags` dict is
empty is reported safe. -/
theorem claim4_is_safe_characterization (m : Message) :
    m.is_safe = false ↔
      m.safety_flags ≠ []
      ∧ (((dictGet m.safety_flags "blocked").getD (.bool false)).truthy = true
         ∨ m.topic_tier = some TopicTier.tier_4) := by
  unfold Message.is_safe
  split_ifs with h1 h2 h3 <;> simp_all [List.isEmpty_iff]

/-- Witness for C4's characterization at a blocked message. -/
theorem claim4_witness :
    (Message.init 1 .user "x" 2 none none
        (some [("blocked", .bool true)]) 0).is_safe = false :=
  (claim4_is_safe_characterization
      (Message.init 1 .user "x" 2 none none (some [("blocked", .bool true)]) 0)).mpr
    ⟨by decide, Or.inl (by decide)⟩

/-- C7.  `archive()` and `restore()` both fail on a deleted
conversation (leaving it unchanged, since the failure happens before
any mutation); on any non-deleted conversation `archive()` followed by
`restore()` succeeds and returns the status to active. -/
theorem claim7_archive_restore (c : Conversation) (n₁ n₂ : Nat) :
    (c.status = ConversationStatus.deleted →
        c.archive n₁ = .error "Cannot archive a deleted conversation"
        ∧ c.restore n₁ = .error "Cannot restore a deleted conversation")
    ∧ (c.status ≠ ConversationStatus.deleted →
        ∃ c₁ c₂, c.archive n₁ = .ok c₁ ∧ c₁.restore n₂ = .ok c₂
          ∧ c₂.status = ConversationStatus.active) := by
  constructor
  · intro h
    constructor <;> simp [Conversation.archive, Conversation.restore, h]
  · intro h
    refine ⟨{ c with status := .archived, updated_at := n₁ },
            { c with status := .active, updated_at := n₂ }, ?_, ?_, rfl⟩
    · simp [Conversation.archive, h]
    · simp [Conversation.restore]

/-- Witness for C7: the deleted branch at `convD`, the round trip at
the archived `convB`. -/
theorem claim7_witness :
    (convD.archive 8 = .error "Cannot archive a deleted conversation"
      ∧ convD.restore 8 = .error "Cannot restore a deleted conversation")
    ∧ ∃ c₁ c₂, convB.archive 8 = .ok c₁ ∧ c₁.restore 9 = .ok c₂
        ∧ c₂.status = ConversationStatus.active :=
  ⟨(claim7_archive_restore convD 8 9).1 (by decide),
    (claim7_archive_restore convB 8 9).2 (by decide)⟩

/-- C9 counterexample.  A PATCH carrying the unknown status string
`"frozen"` does not fail with 400: the handler returns 200 with the
conversation unchanged. -/
theorem claim9_counterexample :
    update_conversation_handler (some convA) ⟨none, some "frozen"⟩ 5
      = .ok convA := rfl

/-- C9 as amended.  A PATCH-conversation request carrying a status
string that is not one of `archived`/`active`/`deleted` is silently
ignored: the request succeeds (200) and the conversation is returned
unmodified. -/
theorem claim9_unknown_status_ignored (conv : Conversation) (s : String)
    (now : Nat) (h1 : s ≠ "archived") (h2 : s ≠ "active") (h3 : s ≠ "deleted") :
    update_conversation_handler (some conv) ⟨none, some s⟩ now = .ok conv := by
  simp [update_conversation_handler, h1, h2, h3]

/-- Witness for C9's amended statement at the string `"frozen"`. -/
theorem claim9_witness :
    update_conversation_handler (some convB) ⟨none, some "frozen"⟩ 6
      = .ok convB :=
  claim9_unknown_status_ignored convB "frozen" 6
    (by decide) (by decide) (by decide)

/-- Validation of a request implies its content is non-empty
(`min_length=1` on the pydantic `content` field). -/
theorem CreateMessageRequest.valid_content {r : CreateMessageRequest}
    (hv : r.valid = true) : 1 ≤ r.content.length := by
  unfold CreateMessageRequest.valid at hv
  simp only [Bool.and_eq_true, decide_eq_true_eq] at hv
  exact hv.1.1.1.1.1

/-- An assistant-role append request carrying `total_tokens = 0`. -/
def reqAsst0 : CreateMessageRequest :=
  { role := "assistant", content := "ok", topic_tier := none
    topic_categories := [], provider := none, model := none
    input_tokens := none, output_tokens := none, total_tokens := some 0
    cost_usd := none }

/-- A user-role append request carrying the out-of-range tier 5. -/
def reqTier5 : CreateMessageRequest :=
  { role := "user", content := "Hi", topic_tier := some 5
    topic_categories := [], provider := none, model := none
    input_tokens := none, output_tokens := none, total_tokens := none
    cost_usd := none }

/-- C3 counterexample.  An assistant message whose request carries
`total_tokens = 0` is persisted, yet no token_usage event is dispatched
(Python `if request_data.total_tokens:` treats 0 as absent), refuting
the claim that a token_usage event is dispatched whenever the role is
assistant and the request carries a total_tokens count. -/
theorem claim3_counterexample :
    reqAsst0.role = "assistant"
    ∧ reqAsst0.total_tokens = some 0
    ∧ ((create_message_endpoint 2 (some convA) reqAsst0 .failure 7 10).storedMessage).isSome
        = true
    ∧ hasTokenUsage
        (create_message_endpoint 2 (some convA) reqAsst0 .failure 7 10).usageEvents
        = false :=
  ⟨rfl, rfl, by decide, by decide⟩

/-- C3 as amended.  For every persisted message: a classification job
is dispatched iff the role is user; a token_usage event is dispatched
iff the role is assistant and the request's `total_tokens` is present
and non-zero; a message_record event is dispatched iff the role is
user. -/
theorem claim3_dispatch_conditions (cid : Nat) (conv : Option Conversation)
    (req : CreateMessageRequest) (lt : TransportResult) (msgId now : Nat)
    (m : Message)
    (h : (create_message_endpoint cid conv req lt msgId now).storedMessage
          = some m) :
    ((create_message_endpoint cid conv req lt msgId now).classificationJobs ≠ []
      ↔ req.role = "user")
    ∧ (hasTokenUsage
        (create_message_endpoint cid conv req lt msgId now).usageEvents = true
      ↔ req.role = "assistant" ∧ optIntTruthy req.total_tokens = true)
    ∧ (hasMessageRecord
        (create_message_endpoint cid conv req lt msgId now).usageEvents = true
      ↔ req.role = "user") := by
  obtain ⟨hv, heq⟩ := create_message_endpoint_stored cid conv req lt msgId now m h
  rw [heq] at h ⊢
  obtain ⟨cv, role, hcv, hr, hm, hjobs, hevents⟩ :=
    create_message_handler_spec cid conv req lt msgId now m h
  rw [hjobs, hevents]
  cases role with
  | user =>
    have hru : req.role = "user" := MessageRole.fromString_eq_user.mp hr
    simp [hru, hasTokenUsage, hasMessageRecord, UsageEvent.isTokenUsage,
      UsageEvent.isMessageRecord]
  | assistant =>
    have hra : req.role = "assistant" := MessageRole.fromString_eq_assistant.mp hr
    by_cases ht : optIntTruthy req.total_tokens = true
    · simp [hra, ht, hasTokenUsage, hasMessageRecord, UsageEvent.isTokenUsage,
        UsageEvent.isMessageRecord]
    · simp [hra, ht, hasTokenUsage, hasMessageRecord, UsageEvent.isTokenUsage,
        UsageEvent.isMessageRecord]
  | system =>
    have hrs : req.role = "system" := MessageRole.fromString_eq_system.mp hr
    simp [hrs, hasTokenUsage, hasMessageRecord, UsageEvent.isTokenUsage,
      UsageEvent.isMessageRecord]

/-- Witness for C3's amended statement at a concrete user message. -/
theorem claim3_witness :
    ((create_message_endpoint 2 (some convA) reqUser .failure 7 10).classificationJobs
        ≠ [] ↔ reqUser.role = "user")
    ∧ (hasTokenUsage
        (create_message_endpoint 2 (some convA) reqUser .failure 7 10).usageEvents
        = true ↔ reqUser.role = "assistant" ∧ optIntTruthy reqUser.total_tokens = true)
    ∧ (hasMessageRecord
        (create_message_endpoint 2 (some convA) reqUser .failure 7 10).usageEvents
        = true ↔ reqUser.role = "user") :=
  claim3_dispatch_conditions 2 (some convA) reqUser .failure 7 10
    (Message.init 2 .user "Hi" 7 none (some []) none 10) (by decide)

/-- C5 counterexample.  The Message constructor performs no content
validation: constructing a message with empty content succeeds and
yields a Message value whose content is empty. -/
theorem claim5_counterexample :
    (Message.init 1 .user "" 2 none none none 0).content = ""
    ∧ (Message.init 1 .user "" 2 none none none 0).content.length = 0 :=
  ⟨rfl, rfl⟩

/-- C5 as amended.  Non-empty content is enforced by the API request
model (`min_length=1`), not by the Message constructor: every message
the pipeline persists has non-empty content, because invalid requests
are rejected before the handler runs. -/
theorem claim5_pipeline_content_nonempty (cid : Nat)
    (conv : Option Conversation) (req : CreateMessageRequest)
    (lt : TransportResult) (msgId now : Nat) (m : Message)
    (h : (create_message_endpoint cid conv req lt msgId now).storedMessage
          = some m) : 1 ≤ m.content.length := by
  obtain ⟨hv, heq⟩ := create_message_endpoint_stored cid conv req lt msgId now m h
  rw [heq] at h
  obtain ⟨cv, role, hcv, hr, hm, _, _⟩ :=
    create_message_handler_spec cid conv req lt msgId now m h
  subst hm
  simpa [Message.init] using CreateMessageRequest.valid_content hv

/-- Witness for C5's amended statement. -/
theorem claim5_witness :
    1 ≤ (Message.init 2 .user "Hi" 7 none (some []) none 10).content.length :=
  claim5_pipeline_content_nonempty 2 (some convA) reqUser .failure 7 10
    (Message.init 2 .user "Hi" 7 none (some []) none 10) (by decide)

/-- A 201-character title. -/
def longTitle : String := String.mk (List.replicate 201 'a')

/-- C6 counterexample.  Constructing a conversation with a 201-character
caller-supplied title stores it verbatim: the title invariant
(length ≤ 200 after trimming) does not hold after construction. -/
theorem claim6_counterexample :
    (Conversation.init 1 9 (some longTitle) .active 0 0 none 0).title.length
      = 201 := by
  have h0 : longTitle.length = 201 := by
    show (List.replicate 201 'a').length = 201
    rw [List.length_replicate]
  have hne : longTitle ≠ "" := by
    intro h
    rw [h] at h0
    exact absurd h0 (by decide)
  calc (Conversation.init 1 9 (some longTitle) .active 0 0 none 0).title.length
      = longTitle.length := by simp [Conversation.init, pyOrStr, hne]
    _ = 201 := h0

/-- C6 as amended.  After `set_title` the invariant holds: the stored
title is the trimmed input truncated to 200 characters, hence of length
at most 200 and non-empty (blank titles are rejected).  The
constructor, by contrast, substitutes "New Conversation" only for an
absent or empty title and otherwise stores the caller-supplied title
verbatim, with no trimming or capping. -/
theorem claim6_title_invariant :
    (∀ (c : Conversation) (t : String) (now : Nat) (c' : Conversation),
        c.set_title t now = .ok c' →
          c'.title = pyTruncate (pyStrip t) 200
          ∧ c'.title.length ≤ 200
          ∧ c'.title ≠ "")
    ∧ ∀ (teen id : Nat) (t : String) (status : ConversationStatus)
        (created updated : Nat) (lma : Option Nat) (mc : Nat),
        (Conversation.init teen id (some t) status created updated lma mc).title
          = if t = "" then "New Conversation" else t := by
  constructor
  · intro c t now c' h
    unfold Conversation.set_title at h
    by_cases hcond : t = "" ∨ (pyStrip t).length = 0
    · rw [if_pos hcond] at h
      simp at h
    · rw [if_neg hcond] at h
      rw [Except.ok.injEq] at h
      subst h
      refine ⟨rfl, List.length_take_le _ _, ?_⟩
      have hlen : (pyStrip t).length ≠ 0 := (not_or.mp hcond).2
      intro he
      have h2 : ((pyStrip t).data.take 200).length = 0 :=
        congrArg String.length he
      rw [List.length_take] at h2
      have h3 : (pyStrip t).data.length ≠ 0 := hlen
      omega
  · intro teen id t status created updated lma mc
    simp [Conversation.init, pyOrStr]

/-- The conversation obtained by retitling `convA` to `" hello "`. -/
def convTitled : Conversation :=
  { convA with title := pyTruncate (pyStrip " hello ") 200, updated_at := 5 }

/-- Witness for C6 at the title `" hello "`. -/
theorem claim6_witness :
    convTitled.title.length ≤ 200 ∧ convTitled.title ≠ "" :=
  have h := claim6_title_invariant.1 convA " hello " 5 convTitled rfl
  ⟨h.2.1, h.2.2⟩

/-- C8 counterexample.  A request carrying the out-of-range tier 5 does
not pass through with the tier silently dropped: it is rejected by the
pydantic constraint `ge=1, le=4` with a validation error, and no
message is created. -/
theorem claim8_counterexample :
    (create_message_endpoint 2 (some convA) reqTier5 .failure 7 10).result
        = .error { status := 422, detail := "request validation error" }
    ∧ (create_message_endpoint 2 (some convA) reqTier5 .failure 7 10).storedMessage
        = none :=
  ⟨rfl, rfl⟩

/-- C8 as amended.  An out-of-range numeric topic_tier is rejected at
request validation (the endpoint fails before the handler, storing
nothing); the handler-level tier map itself would silently drop such a
value (`tier_map.get` yields no tier, with no error), so any message a
direct handler call stores for such a request has `topic_tier` unset. -/
theorem claim8_out_of_range_tier (t : Int) (hout : t < 1 ∨ 4 < t) :
    tierFromInt t = none
    ∧ (∀ req : CreateMessageRequest, req.topic_tier = some t →
        req.valid = false)
    ∧ (∀ (cid : Nat) (conversation : Option Conversation)
        (req : CreateMessageRequest) (lt : TransportResult) (msgId now : Nat),
        req.topic_tier = some t →
        (create_message_endpoint cid conversation req lt msgId now).result
          = .error { status := 422, detail := "request validation error" })
    ∧ (∀ (cid : Nat) (conversation : Option Conversation)
        (req : CreateMessageRequest) (lt : TransportResult) (msgId now : Nat)
        (m : Message),
        req.topic_tier = some t →
        (create_message_handler cid conversation req lt msgId now).storedMessage
          = some m →
        m.topic_tier = none) := by
  have htier : tierFromInt t = none := by
    rcases hout with h' | h' <;>
      (unfold tierFromInt; split_ifs <;> first | rfl | (exfalso; omega))
  have hvalidf : ∀ req : CreateMessageRequest, req.topic_tier = some t →
      req.valid = false := by
    intro req hreq
    unfold CreateMessageRequest.valid
    rw [hreq]
    rcases hout with h' | h'
    · have h1 : ¬(1 ≤ t) := by omega
      simp [h1]
    · have h1 : ¬(t ≤ 4) := by omega
      simp [h1]
  refine ⟨htier, hvalidf, ?_, ?_⟩
  · intro cid conversation req lt msgId now hreq
    simp [create_message_endpoint, hvalidf req hreq]
  · intro cid conversation req lt msgId now m hreq h
    obtain ⟨cv, role, hcv, hr, hm, _, _⟩ :=
      create_message_handler_spec cid conversation req lt msgId now m h
    subst hm
    simp [Message.init, hreq, htier]

/-- Witness for C8 at tier 5. -/
theorem claim8_witness :
    tierFromInt 5 = none ∧ reqTier5.valid = false :=
  ⟨(claim8_out_of_range_tier 5 (Or.inr (by omega))).1,
   (claim8_out_of_range_tier 5 (Or.inr (by omega))).2.1 reqTier5 rfl⟩

/-- C10.  When the status query parameter is omitted, the teen's
conversation listing defaults to the `active` filter: every
conversation in a successful response has status active. -/
theorem claim10_default_status_filter (store : List Conversation)
    (teen_id limit offset : Nat) (r : List Conversation) (c : Conversation)
    (hr : get_teen_conversations_route store teen_id none limit offset = .ok r)
    (hc : c ∈ r) : c.status = ConversationStatus.active := by
  simp [get_teen_conversations_route, ConversationStatus.fromString] at hr
  subst hr
  simp only [get_by_teen_id] at hc
  have h1 := List.take_subset _ _ hc
  have h2 := List.drop_subset _ _ h1
  rw [List.mem_insertionSort] at h2
  have h3 := List.mem_filter.mp h2
  exact of_decide_eq_true h3.2

/-- Witness for C10 on a store holding an active and an archived
conversation for the same teen. -/
theorem claim10_witness : convA.status = ConversationStatus.active :=
  claim10_default_status_filter [convA, convB] 1 50 0 [convA] convA
    rfl (by decide)

end SentraMod
